import Mathlib

/-!
Verification development for the chapter4 `HelpDeskAgent` orchestrator
(`src/chapter4/src/agent.py` and `src/chapter4/src/configs.py`).

The agent's node functions (`create_plan`, `select_tools`, `execute_tools`,
`create_subtask_answer`, `reflect_subtask`, `create_answer`) and its graph
drivers (`_execute_subgraph`, `_should_continue_exec_subtasks`,
`_should_continue_exec_subtask_flow`, `run_agent`) are embedded as pure Lean
functions.  OpenAI model calls are replaced by a deterministic `ModelStub`
whose methods receive the exact `ChatRequest` (messages, temperature, seed)
the Python code would send; every node records the requests it issued so
that pinning of `temperature=0, seed=0` is observable.  Python exceptions
(`ValueError`, `KeyError`, `IndexError`) become `AgentError` values in
`Except`.  Pydantic models from `src/models.py` (not under `src/`) are
reconstructed from their uses in `agent.py`: `Subtask`, `AgentResult`,
`ReflectionResult`, `ToolResult`, `SearchOutput`.  Prompt templates from
`src/prompts.py` (also not under `src/`) are opaque parameters of the agent.
-/

/-- Function payload of a provider tool call: `tool_call["function"]["name"]`
and `tool_call["function"]["arguments"]`.  In the OpenAI SDK the
`arguments` field is the raw JSON text (a string), which is exactly how
`agent.py` consumes it. -/
structure ToolCallFunction where
  name : String
  arguments : String
deriving Repr, DecidableEq, Inhabited

/-- A provider tool call `tool_call["id"]` / `tool_call["function"]`. -/
structure ToolCall where
  id : String
  function : ToolCallFunction
deriving Repr, DecidableEq, Inhabited

/-- One chat message dict as built by `agent.py`.  Python dicts are built
with only the keys the code writes, so key presence is modelled by `Option`:
`tool_calls = none` means the dict has no `"tool_calls"` key (this is how
`"tool_calls" not in message` is embedded). -/
structure ChatMessage where
  role : String
  content : Option String := none
  tool_calls : Option (List ToolCall) := none
  tool_call_id : Option String := none
deriving Repr, DecidableEq, Inhabited

/-- A search hit returned by a tool.  `src/models.py` is not under `src/`;
the orchestrator only ever stringifies these, so a single content field
suffices. -/
structure SearchOutput where
  content : String
deriving Repr, DecidableEq, Inhabited

/-- ToolResult as constructed in `execute_tools`:
`ToolResult(tool_name=..., args=..., results=...)`.  `args` is the raw
arguments string taken from the tool call. -/
structure ToolResult where
  tool_name : String
  args : String
  results : List SearchOutput
deriving Repr, DecidableEq, Inhabited

/-- ReflectionResult with `is_completed` and a textual critique, as read by
`reflect_subtask` (`src/models.py` is not under `src/`; fields follow the
uses in `agent.py` and the spec's `Reflection` record). -/
structure ReflectionResult where
  is_completed : Bool
  reflection : String
deriving Repr, DecidableEq, Inhabited

/-- Stand-in for pydantic `model_dump_json` (external library): a fixed
injective rendering of a `ReflectionResult` used as assistant content. -/
def ReflectionResult.dumpJson (r : ReflectionResult) : String :=
  (if r.is_completed then "true" else "false") ++ "|" ++ r.reflection

/-- Subtask as constructed in `_execute_subgraph` from the terminal
sub-graph state. -/
structure Subtask where
  task_name : String
  tool_results : List (List ToolResult)
  reflection_results : List ReflectionResult
  is_completed : Bool
  subtask_answer : String
  challenge_count : Nat
deriving Repr, DecidableEq, Inhabited

/-- AgentResult as constructed in `run_agent` (the `plan` field holds the
`Plan.subtasks` list of sub-task descriptions). -/
structure AgentResult where
  question : String
  plan : List String
  subtasks : List Subtask
  answer : String
deriving Repr, DecidableEq, Inhabited

/-- Settings from `src/chapter4/src/configs.py`: the full set of recognised
configuration fields with their defaults. -/
structure Settings where
  openai_api_key : Option String := none
  openai_api_base : Option String := none
  openai_model : String := "gpt-4o-2024-08-06"
  azure_openai_api_key : Option String := none
  azure_openai_endpoint : Option String := none
  azure_openai_deployment_name : Option String := none
  azure_openai_embedding_deployment_name : Option String := none
  azure_openai_api_version : String := "2024-12-01-preview"
deriving Repr, DecidableEq, Inhabited

/-- The names of the fields declared on `Settings` in
`src/chapter4/src/configs.py`, in source order.  (`extra="ignore"` in the
pydantic config means any other environment key is silently dropped, not
added as a field.) -/
def Settings.recognisedKeys : List String :=
  [ "openai_api_key"
  , "openai_api_base"
  , "openai_model"
  , "azure_openai_api_key"
  , "azure_openai_endpoint"
  , "azure_openai_deployment_name"
  , "azure_openai_embedding_deployment_name"
  , "azure_openai_api_version" ]

/-- MAX_CHALLENGE_COUNT = 3 from `agent.py` line 36. -/
def MAX_CHALLENGE_COUNT : Nat := 3

/-- Prompt templates (`src/prompts.py` is not under `src/`): opaque strings
and formatting functions, matching the `.format(...)` call shapes in
`agent.py`. -/
structure HelpDeskAgentPrompts where
  planner_system_prompt : String
  planner_user_prompt : String → String
  subtask_system_prompt : String
  subtask_tool_selection_user_prompt : String → List String → String → String
  subtask_retry_answer_user_prompt : String
  subtask_reflection_user_prompt : String
  create_last_answer_system_prompt : String
  create_last_answer_user_prompt : String → List String → String → String

/-- A LangChain tool as the agent sees it: a name and an `invoke` entry
point.  `agent.py` calls `tool.invoke(tool_args)` where `tool_args` is the
raw arguments string of the tool call; LangChain's `invoke`, given a plain
string, binds it unchanged to the tool's single declared argument field, so
the handler is modelled as a function of that string. -/
structure Tool where
  name : String
  invoke : String → List SearchOutput

/-- The agent object: settings, tools and prompts (`HelpDeskAgent.__init__`). -/
structure HelpDeskAgent where
  settings : Settings
  tools : List Tool
  prompts : HelpDeskAgentPrompts

/-- `self.tool_map = {tool.name: tool for tool in tools}` with Python's
`tool_map[name]` lookup (a missing key raises `KeyError`, here `none`). -/
def HelpDeskAgent.tool_map (agent : HelpDeskAgent) (name : String) : Option Tool :=
  agent.tools.find? (fun t => t.name == name)

/-- One request to the chat-completions API: the message list plus the
sampling parameters as passed at each call site in `agent.py`.  `toolNames`
records the advertised tools for the tool-selection call. -/
structure ChatRequest where
  messages : List ChatMessage
  toolNames : List String := []
  temperature : Int
  seed : Int
deriving Repr, DecidableEq, Inhabited

/-- Deterministic model stub: one method per call-site kind, each a pure
function of the full request.  `selectToolCalls = none` models a response
whose `message.tool_calls` is `None`; `reflection = none` models a `null`
structured parse. -/
structure ModelStub where
  plan : ChatRequest → List String
  selectToolCalls : ChatRequest → Option (List ToolCall)
  answerContent : ChatRequest → String
  reflection : ChatRequest → Option ReflectionResult
  finalAnswer : ChatRequest → String

/-- Errors surfaced by the orchestrator (Python exceptions). -/
inductive AgentError where
  | noToolSelected
  | nullToolCalls
  | unknownTool (name : String)
  | reflectionParseNull
  | indexError
deriving Repr, DecidableEq

/-- Sub-graph state `AgentSubGraphState` from `agent.py`. -/
structure AgentSubGraphState where
  question : String
  plan : List String
  subtask : String
  is_completed : Bool
  messages : List ChatMessage
  challenge_count : Nat
  tool_results : List (List ToolResult)
  reflection_results : List ReflectionResult
  subtask_answer : String
deriving Repr, DecidableEq, Inhabited

/-- Stand-in for Python `str(tool_result)` on a list of `SearchOutput`
(external pydantic repr): a fixed rendering used as tool-message content. -/
def renderSearchOutputs (rs : List SearchOutput) : String :=
  String.intercalate ", " (rs.map (fun r => r.content))

/-- Stand-in for Python `str(subtask_results)` on the list of
`(task_name, subtask_answer)` pairs in `create_answer`. -/
def renderPairs (ps : List (String × String)) : String :=
  String.intercalate "; " (ps.map (fun p => p.1 ++ "=" ++ p.2))

/-- The retry-path filter from `select_tools` (`agent.py` line 244),
embedded verbatim:
`[m for m in messages if m["role"] != "tool" or "tool_calls" not in m]`.
Note the `or` between the two conditions. -/
def pruneMessagesForRetry (messages : List ChatMessage) : List ChatMessage :=
  messages.filter (fun m => m.role != "tool" || m.tool_calls.isNone)

/-- The pruning rule as the spec words it (for comparison with
`pruneMessagesForRetry`): remove every message with role=tool and every
assistant message carrying tool_calls. -/
def specPruneMessages (messages : List ChatMessage) : List ChatMessage :=
  messages.filter
    (fun m => m.role != "tool" && !(m.role == "assistant" && m.tool_calls.isSome))

/-- `HelpDeskAgent.select_tools`: build the message buffer (fresh on the
first attempt, filtered + retry prompt on a retry), issue the
tool-selection request with `temperature=0, seed=0`, fail when the response
has no tool calls, else append the assistant tool_calls message.  Returns
the updated state together with the issued request. -/
def HelpDeskAgent.select_tools (agent : HelpDeskAgent) (stub : ModelStub)
    (state : AgentSubGraphState) :
    Except AgentError (AgentSubGraphState × ChatRequest) :=
  let messages :=
    if state.challenge_count == 0 then
      [ { role := "system", content := some agent.prompts.subtask_system_prompt }
      , { role := "user"
        , content := some (agent.prompts.subtask_tool_selection_user_prompt
            state.question state.plan state.subtask) } ]
    else
      pruneMessagesForRetry state.messages
        ++ [ { role := "user"
             , content := some agent.prompts.subtask_retry_answer_user_prompt } ]
  let req : ChatRequest :=
    { messages := messages
    , toolNames := agent.tools.map (fun t => t.name)
    , temperature := 0
    , seed := 0 }
  match stub.selectToolCalls req with
  | none => .error .noToolSelected
  | some tcs =>
      let ai_message : ChatMessage := { role := "assistant", tool_calls := some tcs }
      .ok ({ state with messages := messages ++ [ai_message] }, req)

/-- The tool message appended for one tool call in `execute_tools`
(role=tool, stringified results, matching `tool_call_id`). -/
def toolMessageOf (agent : HelpDeskAgent) (tc : ToolCall) : ChatMessage :=
  { role := "tool"
  , content := some (renderSearchOutputs
      (((agent.tool_map tc.function.name).getD { name := "", invoke := fun _ => [] }).invoke
        tc.function.arguments))
  , tool_call_id := some tc.id }

/-- The loop body of `execute_tools`: process the tool calls strictly in
order; for each, look up `tool_map[name]` (a missing name raises `KeyError`,
modelled as `unknownTool`), invoke the tool on the raw arguments string,
record the `ToolResult` and the `(name, argument)` actually passed to
`invoke`, and append the role=tool message.  The message buffer is mutated
in place in Python, so it is returned even when the loop aborts with an
error, together with the invocation log and the outcome. -/
def executeToolsGo (agent : HelpDeskAgent) :
    List ToolCall → List ChatMessage → List ToolResult → List (String × String) →
    (List ChatMessage × List (String × String) × Except AgentError (List ToolResult))
  | [], messages, acc, invoked => (messages, invoked, .ok acc)
  | tc :: rest, messages, acc, invoked =>
      let tool_name := tc.function.name
      let tool_args := tc.function.arguments
      match agent.tool_map tool_name with
      | none => (messages, invoked, .error (.unknownTool tool_name))
      | some tool =>
          let tool_result := tool.invoke tool_args
          executeToolsGo agent rest
            (messages ++ [ { role := "tool"
                           , content := some (renderSearchOutputs tool_result)
                           , tool_call_id := some tc.id } ])
            (acc ++ [ { tool_name := tool_name, args := tool_args
                      , results := tool_result } ])
            (invoked ++ [(tool_name, tool_args)])

/-- `HelpDeskAgent.execute_tools`: read `messages[-1]["tool_calls"]`
(IndexError on an empty buffer, `ValueError` on a null value), run the tool
calls, and on success append one outer element to `tool_results`.  Also
returns the invocation log (the arguments each tool's `invoke` received). -/
def HelpDeskAgent.execute_tools (agent : HelpDeskAgent)
    (state : AgentSubGraphState) :
    Except AgentError (AgentSubGraphState × List (String × String)) :=
  match state.messages.getLast? with
  | none => .error .indexError
  | some last =>
      match last.tool_calls with
      | none => .error .nullToolCalls
      | some tool_calls =>
          match executeToolsGo agent tool_calls state.messages [] [] with
          | (_, _, .error e) => .error e
          | (messages, invoked, .ok round) =>
              .ok ({ state with
                       messages := messages
                     , tool_results := state.tool_results ++ [round] }, invoked)

/-- `HelpDeskAgent.create_subtask_answer`: plain completion over the full
buffer with `temperature=0, seed=0`; append the assistant answer and set
`subtask_answer`. -/
def HelpDeskAgent.create_subtask_answer (stub : ModelStub)
    (state : AgentSubGraphState) : AgentSubGraphState × ChatRequest :=
  let req : ChatRequest := { messages := state.messages, temperature := 0, seed := 0 }
  let subtask_answer := stub.answerContent req
  ({ state with
       messages := state.messages ++ [ { role := "assistant", content := some subtask_answer } ]
     , subtask_answer := subtask_answer }, req)

/-- The deterministic placeholder set by `reflect_subtask` when the budget
is exhausted without completion:
`f"{state['subtask']}の回答が見つかりませんでした。"`. -/
def noAnswerPlaceholder (subtask : String) : String :=
  subtask ++ "の回答が見つかりませんでした。"

/-- `HelpDeskAgent.reflect_subtask`: append the reflection prompt, issue a
structured-parse request with `temperature=0, seed=0` (a null parse raises),
append the serialised reflection as an assistant message, append the
reflection to `reflection_results`, increment `challenge_count`, set
`is_completed`, and on exhausted budget without completion replace
`subtask_answer` with the placeholder. -/
def HelpDeskAgent.reflect_subtask (agent : HelpDeskAgent) (stub : ModelStub)
    (state : AgentSubGraphState) :
    Except AgentError (AgentSubGraphState × ChatRequest) :=
  let messages := state.messages
    ++ [ { role := "user", content := some agent.prompts.subtask_reflection_user_prompt } ]
  let req : ChatRequest := { messages := messages, temperature := 0, seed := 0 }
  match stub.reflection req with
  | none => .error .reflectionParseNull
  | some reflection_result =>
      let messages := messages
        ++ [ { role := "assistant", content := some reflection_result.dumpJson } ]
      let challenge_count := state.challenge_count + 1
      let base : AgentSubGraphState :=
        { state with
            messages := messages
          , reflection_results := state.reflection_results ++ [reflection_result]
          , challenge_count := challenge_count
          , is_completed := reflection_result.is_completed }
      if MAX_CHALLENGE_COUNT ≤ challenge_count ∧ ¬ reflection_result.is_completed then
        .ok ({ base with subtask_answer := noAnswerPlaceholder state.subtask }, req)
      else
        .ok (base, req)

/-- `HelpDeskAgent._should_continue_exec_subtask_flow`: the conditional
back-edge of the sub-graph. -/
def HelpDeskAgent.should_continue_exec_subtask_flow (state : AgentSubGraphState) : String :=
  if state.is_completed ∨ MAX_CHALLENGE_COUNT ≤ state.challenge_count then "end"
  else "continue"

/-- One SELECT→EXEC→ANSWER→REFLECT pass of the sub-graph, collecting the
three model requests it issues. -/
def subtaskRound (agent : HelpDeskAgent) (stub : ModelStub)
    (state : AgentSubGraphState) :
    Except AgentError (AgentSubGraphState × List ChatRequest) :=
  match agent.select_tools stub state with
  | .error e => .error e
  | .ok (s1, reqSelect) =>
      match agent.execute_tools s1 with
      | .error e => .error e
      | .ok (s2, _) =>
          let s3 := (HelpDeskAgent.create_subtask_answer stub s2).1
          let reqAnswer := (HelpDeskAgent.create_subtask_answer stub s2).2
          match agent.reflect_subtask stub s3 with
          | .error e => .error e
          | .ok (s4, reqReflect) => .ok (s4, [reqSelect, reqAnswer, reqReflect])

/-- The compiled sub-graph loop: run rounds until the conditional edge
routes to "end".  `fuel` bounds the recursion; `MAX_CHALLENGE_COUNT` fuel
always suffices because each round increments `challenge_count` (proved
below). -/
def runSubtaskLoop (agent : HelpDeskAgent) (stub : ModelStub) :
    Nat → AgentSubGraphState →
    Except AgentError (AgentSubGraphState × List ChatRequest)
  | 0, state => .ok (state, [])
  | Nat.succ fuel, state =>
      match subtaskRound agent stub state with
      | .error e => .error e
      | .ok (s, reqs) =>
          if HelpDeskAgent.should_continue_exec_subtask_flow s == "end" then
            .ok (s, reqs)
          else
            match runSubtaskLoop agent stub fuel s with
            | .error e => .error e
            | .ok (s2, reqs2) => .ok (s2, reqs ++ reqs2)

/-- The seed state `_execute_subgraph` passes to `subgraph.invoke`:
`subtask = plan[current_step]`, `is_completed = False`,
`challenge_count = 0`; the remaining channels start empty. -/
def initSubState (question : String) (plan : List String) (current_step : Nat) :
    AgentSubGraphState :=
  { question := question
  , plan := plan
  , subtask := plan.getD current_step ""
  , is_completed := false
  , messages := []
  , challenge_count := 0
  , tool_results := []
  , reflection_results := []
  , subtask_answer := "" }

/-- `HelpDeskAgent._execute_subgraph`: run the sub-graph for one plan entry
and wrap the terminal state in a `Subtask`. -/
def HelpDeskAgent.execute_subgraph (agent : HelpDeskAgent) (stub : ModelStub)
    (fuel : Nat) (question : String) (plan : List String) (current_step : Nat) :
    Except AgentError (Subtask × List ChatRequest) :=
  match runSubtaskLoop agent stub fuel (initSubState question plan current_step) with
  | .error e => .error e
  | .ok (result, reqs) =>
      .ok ({ task_name := result.subtask
           , tool_results := result.tool_results
           , reflection_results := result.reflection_results
           , is_completed := result.is_completed
           , subtask_answer := result.subtask_answer
           , challenge_count := result.challenge_count }, reqs)

/-- `HelpDeskAgent._should_continue_exec_subtasks`: one fan-out `Send` per
plan entry, in plan-index order (`for idx, _ in enumerate(state["plan"])`).
The seeds are the `current_step` indices. -/
def HelpDeskAgent.should_continue_exec_subtasks (plan : List String) : List Nat :=
  List.range plan.length

/-- Run the fan-out children in the given order, collecting each child's
`Subtask` and request trace; any child failure aborts the whole run. -/
def runChildrenGo (agent : HelpDeskAgent) (stub : ModelStub) (fuel : Nat)
    (question : String) (plan : List String) :
    List Nat → Except AgentError (List (Subtask × List ChatRequest))
  | [] => .ok []
  | idx :: rest =>
      match agent.execute_subgraph stub fuel question plan idx with
      | .error e => .error e
      | .ok child =>
          match runChildrenGo agent stub fuel question plan rest with
          | .error e => .error e
          | .ok rest2 => .ok (child :: rest2)

/-- `HelpDeskAgent.create_plan`: structured-parse planner call with
`temperature=0, seed=0` over the planner prompts. -/
def HelpDeskAgent.create_plan (agent : HelpDeskAgent) (stub : ModelStub)
    (question : String) : List String × ChatRequest :=
  let messages : List ChatMessage :=
    [ { role := "system", content := some agent.prompts.planner_system_prompt }
    , { role := "user", content := some (agent.prompts.planner_user_prompt question) } ]
  let req : ChatRequest := { messages := messages, temperature := 0, seed := 0 }
  (stub.plan req, req)

/-- `HelpDeskAgent.create_answer`: extract `(task_name, subtask_answer)`
pairs, render the summariser prompts, and issue a plain completion with
`temperature=0, seed=0`. -/
def HelpDeskAgent.create_answer (agent : HelpDeskAgent) (stub : ModelStub)
    (question : String) (plan : List String) (subtask_results : List Subtask) :
    String × ChatRequest :=
  let pairs := subtask_results.map (fun r => (r.task_name, r.subtask_answer))
  let messages : List ChatMessage :=
    [ { role := "system", content := some agent.prompts.create_last_answer_system_prompt }
    , { role := "user"
      , content := some (agent.prompts.create_last_answer_user_prompt
          question plan (renderPairs pairs)) } ]
  let req : ChatRequest := { messages := messages, temperature := 0, seed := 0 }
  (stub.finalAnswer req, req)

/-- `HelpDeskAgent.run_agent`: plan, fan out one sub-graph per plan entry,
join the children's `subtask_results` in fan-out order, synthesise the final
answer, and build the `AgentResult`.  Also returns the full trace of model
requests issued during the run. -/
def HelpDeskAgent.run_agent (agent : HelpDeskAgent) (stub : ModelStub)
    (fuel : Nat) (question : String) :
    Except AgentError (AgentResult × List ChatRequest) :=
  let plan := (agent.create_plan stub question).1
  let reqPlan := (agent.create_plan stub question).2
  match runChildrenGo agent stub fuel question plan
      (HelpDeskAgent.should_continue_exec_subtasks plan) with
  | .error e => .error e
  | .ok children =>
      let subtask_results := children.map (fun c => c.1)
      let childReqs := (children.map (fun c => c.2)).flatten
      let last_answer := (agent.create_answer stub question plan subtask_results).1
      let reqFinal := (agent.create_answer stub question plan subtask_results).2
      .ok ({ question := question
           , plan := plan
           , subtasks := subtask_results
           , answer := last_answer }, reqPlan :: childReqs ++ [reqFinal])

/-- Modelled from the spec: the graph engine's join reducer is implemented
by LangGraph, which is not under `src/`; §4.1 and §5 require the engine to
buffer the fan-out children's contributions and apply them in
fan-out-index order at the join, independent of completion order.  Given
the contributions tagged with their fan-out indices (in any completion
order), the join emits them in index order. -/
def joinSubtaskResults (n : Nat) (contribs : List (Nat × Subtask)) : List Subtask :=
  (List.range n).filterMap
    (fun i => (contribs.find? (fun c => c.1 == i)).map (fun c => c.2))

/-- Tag each list element with its index starting at `i` (the canonical
in-order contribution list of the fan-out children). -/
def indexedFrom : Nat → List Subtask → List (Nat × Subtask)
  | _, [] => []
  | i, a :: t => (i, a) :: indexedFrom (i + 1) t

/-! ## Concrete instances used by witnesses and counterexamples -/

/-- A concrete prompt set (the templates are opaque; any values work). -/
def promptsA : HelpDeskAgentPrompts :=
  { planner_system_prompt := "PS"
  , planner_user_prompt := fun q => "PU " ++ q
  , subtask_system_prompt := "SS"
  , subtask_tool_selection_user_prompt := fun q p s =>
      "TS " ++ q ++ " " ++ String.intercalate "," p ++ " " ++ s
  , subtask_retry_answer_user_prompt := "RETRY"
  , subtask_reflection_user_prompt := "REFLECT"
  , create_last_answer_system_prompt := "LS"
  , create_last_answer_user_prompt := fun q p r =>
      "LU " ++ q ++ " " ++ String.intercalate "," p ++ " " ++ r }

/-- A concrete registered tool named like the repository's `search_xyz_qa`. -/
def toolA : Tool := { name := "search_xyz_qa", invoke := fun q => [{ content := "hit:" ++ q }] }

/-- A concrete agent with one registered tool. -/
def agentA : HelpDeskAgent := { settings := {}, tools := [toolA], prompts := promptsA }

/-- The raw JSON text a provider puts in `tool_call.function.arguments`. -/
def rawArgsA : String := "\x7b\"query\": \"ERR-404\"\x7d"

/-- A concrete tool call for the registered tool, carrying raw JSON arguments. -/
def tcA : ToolCall := { id := "call_1", function := { name := "search_xyz_qa", arguments := rawArgsA } }

/-- A deterministic stub whose reflector reports completion on the first round. -/
def stubOk : ModelStub :=
  { plan := fun _ => ["look up ERR-404"]
  , selectToolCalls := fun _ => some [tcA]
  , answerContent := fun _ => "ANSWER"
  , reflection := fun _ => some { is_completed := true, reflection := "ok" }
  , finalAnswer := fun _ => "FINAL" }

/-- A stub whose reflector never reports completion (budget exhaustion). -/
def stubFail : ModelStub :=
  { stubOk with reflection := fun _ => some { is_completed := false, reflection := "insufficient" } }

/-- A stub whose tool-selection response carries no tool calls. -/
def stubNone : ModelStub :=
  { stubOk with selectToolCalls := fun _ => none }

/-- A stub planning two sub-tasks, each completed in one round. -/
def stub2 : ModelStub :=
  { stubOk with plan := fun _ => ["A", "B"] }

/-- Concrete retry-buffer pieces for the pruning claim. -/
def c1toolMsg : ChatMessage :=
  { role := "tool", content := some "OLD RESULTS", tool_call_id := some "call_0" }

/-- The assistant message that carried the previous round's tool calls. -/
def c1aiToolCalls : ChatMessage := { role := "assistant", tool_calls := some [tcA] }

/-- A retry-time sub-graph state (challenge_count = 1) whose buffer holds a
system turn, the user turn, an assistant tool_calls message, a role=tool
message, the answer, the reflection prompt and the serialised reflection. -/
def c1state : AgentSubGraphState :=
  { question := "q"
  , plan := ["look up ERR-404"]
  , subtask := "look up ERR-404"
  , is_completed := false
  , messages :=
      [ { role := "system", content := some "SS" }
      , { role := "user", content := some "U" }
      , c1aiToolCalls
      , c1toolMsg
      , { role := "assistant", content := some "ANSWER" }
      , { role := "user", content := some "REFLECT" }
      , { role := "assistant", content := some "false|need more" } ]
  , challenge_count := 1
  , tool_results := [[{ tool_name := "search_xyz_qa", args := rawArgsA
                      , results := [{ content := "OLD RESULTS" }] }]]
  , reflection_results := [{ is_completed := false, reflection := "need more" }]
  , subtask_answer := "ANSWER" }

/-- The request the retry `select_tools` sends to the model on `c1state`. -/
def c1sent : ChatRequest :=
  ((agentA.select_tools stubOk c1state).toOption.getD default).2

/-- Concrete two-sub-task run used as the C2 witness input. -/
def c2pair : AgentResult × List ChatRequest :=
  (agentA.run_agent stub2 MAX_CHALLENGE_COUNT "q").toOption.getD default

/-- The two children's contributions in reversed (completion) order. -/
def c2contribs : List (Nat × Subtask) := (indexedFrom 0 c2pair.1.subtasks).reverse

/-- Concrete one-round loop run used as the C3 and C5 witness input. -/
def c3pair : AgentSubGraphState × List ChatRequest :=
  (runSubtaskLoop agentA stubOk MAX_CHALLENGE_COUNT
    (initSubState "q" ["look up ERR-404"] 0)).toOption.getD default

/-- Concrete budget-exhausting sub-graph run (reflector never completes). -/
def c4pair : Subtask × List ChatRequest :=
  (agentA.execute_subgraph stubFail MAX_CHALLENGE_COUNT "q"
    ["look up ERR-404"] 0).toOption.getD default

/-- Concrete successful one-sub-task run used as the C6 witness input. -/
def c6pair : AgentResult × List ChatRequest :=
  (agentA.run_agent stubOk MAX_CHALLENGE_COUNT "q").toOption.getD default

/-- The invocation log of the dispatcher on one concrete provider tool
call whose raw JSON arguments text is `rawArgsA`. -/
def c8invoked : List (String × String) := (executeToolsGo agentA [tcA] [] [] []).2.1

/-- The successful outcome of the concrete one-call dispatch. -/
def c8results : List ToolResult :=
  ((executeToolsGo agentA [tcA] [] [] []).2.2).toOption.getD []

/-- A tool call whose name is absent from the registry. -/
def tcBad : ToolCall :=
  { id := "call_2", function := { name := "missing_tool", arguments := "\x7b\x7d" } }

/-! ## Node-level lemmas -/

/-- Fields `select_tools` leaves unchanged, and the pinned sampling
parameters of the request it issues. -/
theorem select_tools_ok (agent : HelpDeskAgent) (stub : ModelStub)
    (s s1 : AgentSubGraphState) (req : ChatRequest)
    (h : agent.select_tools stub s = .ok (s1, req)) :
    s1.challenge_count = s.challenge_count ∧ s1.subtask = s.subtask ∧
    s1.is_completed = s.is_completed ∧
    s1.tool_results = s.tool_results ∧ s1.reflection_results = s.reflection_results ∧
    s1.subtask_answer = s.subtask_answer ∧ req.temperature = 0 ∧ req.seed = 0 := by
  unfold HelpDeskAgent.select_tools at h
  split at h <;>
  · simp only [] at h
    split at h
    · exact absurd h (by simp)
    · simp only [Except.ok.injEq, Prod.mk.injEq] at h
      obtain ⟨h1, h2⟩ := h
      subst h1; subst h2
      simp

/-- Fields `execute_tools` leaves unchanged, and the one outer element it
appends to `tool_results`. -/
theorem execute_tools_ok (agent : HelpDeskAgent)
    (s s1 : AgentSubGraphState) (invoked : List (String × String))
    (h : agent.execute_tools s = .ok (s1, invoked)) :
    s1.challenge_count = s.challenge_count ∧ s1.subtask = s.subtask ∧
    s1.is_completed = s.is_completed ∧
    s1.tool_results.length = s.tool_results.length + 1 ∧
    s1.reflection_results = s.reflection_results ∧
    s1.subtask_answer = s.subtask_answer := by
  unfold HelpDeskAgent.execute_tools at h
  split at h
  · exact absurd h (by simp)
  · split at h
    · exact absurd h (by simp)
    · split at h
      · exact absurd h (by simp)
      · rename_i messages invoked2 round heq
        simp only [Except.ok.injEq, Prod.mk.injEq] at h
        obtain ⟨h1, h2⟩ := h
        subst h1
        simp

/-- Fields `create_subtask_answer` leaves unchanged, and the pinned
sampling parameters of its request. -/
theorem create_subtask_answer_ok (stub : ModelStub) (s : AgentSubGraphState) :
    (HelpDeskAgent.create_subtask_answer stub s).1.challenge_count = s.challenge_count ∧
    (HelpDeskAgent.create_subtask_answer stub s).1.subtask = s.subtask ∧
    (HelpDeskAgent.create_subtask_answer stub s).1.is_completed = s.is_completed ∧
    (HelpDeskAgent.create_subtask_answer stub s).1.tool_results = s.tool_results ∧
    (HelpDeskAgent.create_subtask_answer stub s).1.reflection_results = s.reflection_results ∧
    (HelpDeskAgent.create_subtask_answer stub s).2.temperature = 0 ∧
    (HelpDeskAgent.create_subtask_answer stub s).2.seed = 0 := by
  unfold HelpDeskAgent.create_subtask_answer
  simp

/-- Effect of `reflect_subtask`: `challenge_count` grows by one, one
reflection is appended, `subtask` and `tool_results` are unchanged, the
request is pinned, and on an exhausted budget without completion the
placeholder is installed. -/
theorem reflect_subtask_ok (agent : HelpDeskAgent) (stub : ModelStub)
    (s s1 : AgentSubGraphState) (req : ChatRequest)
    (h : agent.reflect_subtask stub s = .ok (s1, req)) :
    s1.challenge_count = s.challenge_count + 1 ∧ s1.subtask = s.subtask ∧
    s1.tool_results = s.tool_results ∧
    s1.reflection_results.length = s.reflection_results.length + 1 ∧
    req.temperature = 0 ∧ req.seed = 0 ∧
    (s1.is_completed = false → MAX_CHALLENGE_COUNT ≤ s1.challenge_count →
      s1.subtask_answer = noAnswerPlaceholder s.subtask) := by
  unfold HelpDeskAgent.reflect_subtask at h
  simp only [] at h
  split at h
  · exact absurd h (by simp)
  · rename_i reflection_result heq
    split at h
    · rename_i hcond
      simp only [Except.ok.injEq, Prod.mk.injEq] at h
      obtain ⟨h1, h2⟩ := h
      subst h1; subst h2
      simp
    · rename_i hcond
      simp only [Except.ok.injEq, Prod.mk.injEq] at h
      obtain ⟨h1, h2⟩ := h
      subst h1; subst h2
      simp only [not_and, not_not] at hcond
      refine ⟨rfl, rfl, rfl, by simp, rfl, rfl, ?_⟩
      intro hic hcc
      simp only at hic hcc
      exact absurd (hcond hcc) (by simp [hic])

/-! ## Round-level and loop-level lemmas -/

theorem subtaskRound_ok (agent : HelpDeskAgent) (stub : ModelStub)
    (s s4 : AgentSubGraphState) (reqs : List ChatRequest)
    (h : subtaskRound agent stub s = .ok (s4, reqs)) :
    s4.challenge_count = s.challenge_count + 1 ∧
    s4.subtask = s.subtask ∧
    s4.tool_results.length = s.tool_results.length + 1 ∧
    s4.reflection_results.length = s.reflection_results.length + 1 ∧
    (s4.is_completed = false → MAX_CHALLENGE_COUNT ≤ s4.challenge_count →
      s4.subtask_answer = noAnswerPlaceholder s.subtask) ∧
    (∀ r ∈ reqs, r.temperature = 0 ∧ r.seed = 0) := by
  unfold subtaskRound at h
  split at h
  · exact absurd h (by simp)
  · rename_i s1 reqSelect hsel
    split at h
    · exact absurd h (by simp)
    · rename_i s2 invoked hexec
      simp only [] at h
      split at h
      · exact absurd h (by simp)
      · rename_i s4p reqReflect hrefl
        simp only [Except.ok.injEq, Prod.mk.injEq] at h
        obtain ⟨h1, h2⟩ := h
        subst h1; subst h2
        obtain ⟨e1, e2, e3, e4, e5, e6, e7, e8⟩ := select_tools_ok agent stub s s1 reqSelect hsel
        obtain ⟨x1, x2, x3, x4, x5, x6⟩ := execute_tools_ok agent s1 s2 invoked hexec
        obtain ⟨a1, a2, a3, a4, a5, a6, a7⟩ := create_subtask_answer_ok stub s2
        obtain ⟨r1, r2, r3, r4, r5, r6, r7⟩ :=
          reflect_subtask_ok agent stub _ s4p reqReflect hrefl
        refine ⟨?_, ?_, ?_, ?_, ?_, ?_⟩
        · omega
        · rw [r2, a2, x2, e2]
        · rw [r3, a4, x4, e4]
        · rw [r4, a5, x5, e5]
        · intro hic hcc
          rw [r7 hic hcc, a2, x2, e2]
        · intro r hr
          simp only [List.mem_cons, List.mem_singleton] at hr
          rcases hr with rfl | rfl | rfl | hr
          · exact ⟨e7, e8⟩
          · exact ⟨a6, a7⟩
          · exact ⟨r5, r6⟩
          · exact absurd hr (List.not_mem_nil r)

/-- The conditional back-edge routes to "end" exactly on the spec'd
terminal condition. -/
theorem should_continue_end_iff (s : AgentSubGraphState) :
    (HelpDeskAgent.should_continue_exec_subtask_flow s == "end") = true ↔
      (s.is_completed = true ∨ MAX_CHALLENGE_COUNT ≤ s.challenge_count) := by
  unfold HelpDeskAgent.should_continue_exec_subtask_flow
  by_cases hc : s.is_completed = true ∨ MAX_CHALLENGE_COUNT ≤ s.challenge_count
  · rw [if_pos hc]; simpa using hc
  · rw [if_neg hc]
    constructor
    · intro hfalse; exact absurd hfalse (by decide)
    · intro hcon; exact absurd hcon hc

/-- Main loop specification: started below the budget with enough fuel, a
successful loop ends exactly on the terminal condition, strictly increases
the challenge counter, stays within the budget, preserves `subtask`, and
installs the placeholder when it ends incomplete. -/
theorem runSubtaskLoop_ok_spec (agent : HelpDeskAgent) (stub : ModelStub)
    (fuel : Nat) (s res : AgentSubGraphState) (reqs : List ChatRequest)
    (hf : MAX_CHALLENGE_COUNT ≤ s.challenge_count + fuel)
    (hlt : s.challenge_count < MAX_CHALLENGE_COUNT)
    (h : runSubtaskLoop agent stub fuel s = .ok (res, reqs)) :
    (res.is_completed = true ∨ res.challenge_count = MAX_CHALLENGE_COUNT) ∧
    s.challenge_count < res.challenge_count ∧
    res.challenge_count ≤ MAX_CHALLENGE_COUNT ∧
    res.subtask = s.subtask ∧
    (res.is_completed = false → res.subtask_answer = noAnswerPlaceholder s.subtask) := by
  induction fuel generalizing s res reqs with
  | zero => omega
  | succ fuel ih =>
      unfold runSubtaskLoop at h
      split at h
      · exact absurd h (by simp)
      · rename_i s1 reqs1 hround
        obtain ⟨c1, c2, c3, c4, c5, c6⟩ := subtaskRound_ok agent stub s s1 reqs1 hround
        by_cases hend : (HelpDeskAgent.should_continue_exec_subtask_flow s1 == "end") = true
        · rw [if_pos hend] at h
          simp only [Except.ok.injEq, Prod.mk.injEq] at h
          obtain ⟨h1, h2⟩ := h; subst h1
          have hcond := (should_continue_end_iff s1).mp hend
          refine ⟨?_, by omega, by omega, c2, ?_⟩
          · rcases hcond with hic | hcc
            · exact Or.inl hic
            · exact Or.inr (by omega)
          · intro hic
            rcases hcond with hic2 | hcc
            · rw [hic] at hic2; exact absurd hic2 (by simp)
            · exact c5 hic hcc
        · rw [if_neg hend] at h
          have hcond := (should_continue_end_iff s1).not.mp hend
          push_neg at hcond
          obtain ⟨hic1, hcc1⟩ := hcond
          split at h
          · exact absurd h (by simp)
          · rename_i s2 reqs2 hrec
            simp only [Except.ok.injEq, Prod.mk.injEq] at h
            obtain ⟨h1, h2⟩ := h; subst h1
            obtain ⟨d1, d2, d3, d4, d5⟩ := ih s1 _ reqs2 (by omega) (by omega) hrec
            refine ⟨d1, by omega, d3, by rw [d4, c2], ?_⟩
            intro hic
            rw [d5 hic, c2]

/-- Extra fuel beyond the remaining budget does not change the loop's
outcome (the loop never runs a round past the terminal condition). -/
theorem runSubtaskLoop_fuel_indep (agent : HelpDeskAgent) (stub : ModelStub)
    (f1 f2 : Nat) (s : AgentSubGraphState)
    (h1 : MAX_CHALLENGE_COUNT ≤ s.challenge_count + f1)
    (h2 : MAX_CHALLENGE_COUNT ≤ s.challenge_count + f2)
    (hlt : s.challenge_count < MAX_CHALLENGE_COUNT) :
    runSubtaskLoop agent stub f1 s = runSubtaskLoop agent stub f2 s := by
  induction f1 generalizing f2 s with
  | zero => omega
  | succ n ih =>
      match f2, h2 with
      | 0, h2 => omega
      | Nat.succ m, h2 =>
          show runSubtaskLoop agent stub (n + 1) s = runSubtaskLoop agent stub (m + 1) s
          unfold runSubtaskLoop
          cases hround : subtaskRound agent stub s with
          | error e => rfl
          | ok pair =>
              obtain ⟨s1, reqs1⟩ := pair
              dsimp only
              obtain ⟨c1, c2, c3, c4, c5, c6⟩ := subtaskRound_ok agent stub s s1 reqs1 hround
              by_cases hend : (HelpDeskAgent.should_continue_exec_subtask_flow s1 == "end") = true
              · rw [if_pos hend, if_pos hend]
              · rw [if_neg hend, if_neg hend]
                have hcond := (should_continue_end_iff s1).not.mp hend
                push_neg at hcond
                obtain ⟨hic1, hcc1⟩ := hcond
                rw [ih m s1 (by omega) (by omega) (by omega)]

/-- A successful loop keeps `len(tool_results) = len(reflection_results) =
challenge_count` whenever it starts with that equality (each round adds one
to each). -/
theorem runSubtaskLoop_lengths (agent : HelpDeskAgent) (stub : ModelStub)
    (fuel : Nat) (s res : AgentSubGraphState) (reqs : List ChatRequest)
    (h : runSubtaskLoop agent stub fuel s = .ok (res, reqs))
    (htool : s.tool_results.length = s.challenge_count)
    (hrefl : s.reflection_results.length = s.challenge_count) :
    res.tool_results.length = res.challenge_count ∧
    res.reflection_results.length = res.challenge_count := by
  induction fuel generalizing s res reqs with
  | zero =>
      unfold runSubtaskLoop at h
      simp only [Except.ok.injEq, Prod.mk.injEq] at h
      obtain ⟨h1, h2⟩ := h; subst h1
      exact ⟨htool, hrefl⟩
  | succ fuel ih =>
      unfold runSubtaskLoop at h
      split at h
      · exact absurd h (by simp)
      · rename_i s1 reqs1 hround
        obtain ⟨c1, c2, c3, c4, c5, c6⟩ := subtaskRound_ok agent stub s s1 reqs1 hround
        by_cases hend : (HelpDeskAgent.should_continue_exec_subtask_flow s1 == "end") = true
        · rw [if_pos hend] at h
          simp only [Except.ok.injEq, Prod.mk.injEq] at h
          obtain ⟨h1, h2⟩ := h; subst h1
          constructor <;> omega
        · rw [if_neg hend] at h
          split at h
          · exact absurd h (by simp)
          · rename_i s2 reqs2 hrec
            simp only [Except.ok.injEq, Prod.mk.injEq] at h
            obtain ⟨h1, h2⟩ := h; subst h1
            exact ih s1 _ reqs2 hrec (by omega) (by omega)

/-- A successful loop preserves the `subtask` field (no hypotheses on the
start state). -/
theorem runSubtaskLoop_subtask (agent : HelpDeskAgent) (stub : ModelStub)
    (fuel : Nat) (s res : AgentSubGraphState) (reqs : List ChatRequest)
    (h : runSubtaskLoop agent stub fuel s = .ok (res, reqs)) :
    res.subtask = s.subtask := by
  induction fuel generalizing s res reqs with
  | zero =>
      unfold runSubtaskLoop at h
      simp only [Except.ok.injEq, Prod.mk.injEq] at h
      obtain ⟨h1, h2⟩ := h; subst h1; rfl
  | succ fuel ih =>
      unfold runSubtaskLoop at h
      split at h
      · exact absurd h (by simp)
      · rename_i s1 reqs1 hround
        obtain ⟨c1, c2, c3, c4, c5, c6⟩ := subtaskRound_ok agent stub s s1 reqs1 hround
        by_cases hend : (HelpDeskAgent.should_continue_exec_subtask_flow s1 == "end") = true
        · rw [if_pos hend] at h
          simp only [Except.ok.injEq, Prod.mk.injEq] at h
          obtain ⟨h1, h2⟩ := h; subst h1
          exact c2
        · rw [if_neg hend] at h
          split at h
          · exact absurd h (by simp)
          · rename_i s2 reqs2 hrec
            simp only [Except.ok.injEq, Prod.mk.injEq] at h
            obtain ⟨h1, h2⟩ := h; subst h1
            rw [ih s1 _ reqs2 hrec, c2]

/-- Every request a successful loop issues pins `temperature = 0` and
`seed = 0`. -/
theorem runSubtaskLoop_trace (agent : HelpDeskAgent) (stub : ModelStub)
    (fuel : Nat) (s res : AgentSubGraphState) (reqs : List ChatRequest)
    (h : runSubtaskLoop agent stub fuel s = .ok (res, reqs)) :
    ∀ r ∈ reqs, r.temperature = 0 ∧ r.seed = 0 := by
  induction fuel generalizing s res reqs with
  | zero =>
      unfold runSubtaskLoop at h
      simp only [Except.ok.injEq, Prod.mk.injEq] at h
      obtain ⟨h1, h2⟩ := h; subst h2
      intro r hr; exact absurd hr (List.not_mem_nil r)
  | succ fuel ih =>
      unfold runSubtaskLoop at h
      split at h
      · exact absurd h (by simp)
      · rename_i s1 reqs1 hround
        obtain ⟨c1, c2, c3, c4, c5, c6⟩ := subtaskRound_ok agent stub s s1 reqs1 hround
        by_cases hend : (HelpDeskAgent.should_continue_exec_subtask_flow s1 == "end") = true
        · rw [if_pos hend] at h
          simp only [Except.ok.injEq, Prod.mk.injEq] at h
          obtain ⟨h1, h2⟩ := h; subst h2
          exact c6
        · rw [if_neg hend] at h
          split at h
          · exact absurd h (by simp)
          · rename_i s2 reqs2 hrec
            simp only [Except.ok.injEq, Prod.mk.injEq] at h
            obtain ⟨h1, h2⟩ := h; subst h2
            intro r hr
            rcases List.mem_append.mp hr with hr1 | hr2
            · exact c6 r hr1
            · exact ih s1 _ reqs2 hrec r hr2

/-- A successful loop started strictly below the budget never ends above
it (any fuel). -/
theorem runSubtaskLoop_cc_le (agent : HelpDeskAgent) (stub : ModelStub)
    (fuel : Nat) (s res : AgentSubGraphState) (reqs : List ChatRequest)
    (hlt : s.challenge_count < MAX_CHALLENGE_COUNT)
    (h : runSubtaskLoop agent stub fuel s = .ok (res, reqs)) :
    res.challenge_count ≤ MAX_CHALLENGE_COUNT := by
  induction fuel generalizing s res reqs with
  | zero =>
      unfold runSubtaskLoop at h
      simp only [Except.ok.injEq, Prod.mk.injEq] at h
      obtain ⟨h1, h2⟩ := h; subst h1; omega
  | succ fuel ih =>
      unfold runSubtaskLoop at h
      split at h
      · exact absurd h (by simp)
      · rename_i s1 reqs1 hround
        obtain ⟨c1, c2, c3, c4, c5, c6⟩ := subtaskRound_ok agent stub s s1 reqs1 hround
        by_cases hend : (HelpDeskAgent.should_continue_exec_subtask_flow s1 == "end") = true
        · rw [if_pos hend] at h
          simp only [Except.ok.injEq, Prod.mk.injEq] at h
          obtain ⟨h1, h2⟩ := h; subst h1; omega
        · rw [if_neg hend] at h
          have hcond := (should_continue_end_iff s1).not.mp hend
          push_neg at hcond
          split at h
          · exact absurd h (by simp)
          · rename_i s2 reqs2 hrec
            simp only [Except.ok.injEq, Prod.mk.injEq] at h
            obtain ⟨h1, h2⟩ := h; subst h1
            exact ih s1 _ reqs2 (by omega) hrec

/-! ## Fan-out, join and run-level lemmas -/

/-- A successful sub-graph run for plan index `idx` reports the plan entry
as its `task_name`, and every request it issued is pinned. -/
theorem execute_subgraph_ok (agent : HelpDeskAgent) (stub : ModelStub)
    (fuel : Nat) (question : String) (plan : List String) (idx : Nat)
    (st : Subtask) (reqs : List ChatRequest)
    (h : agent.execute_subgraph stub fuel question plan idx = .ok (st, reqs)) :
    st.task_name = plan.getD idx "" ∧
    (∀ r ∈ reqs, r.temperature = 0 ∧ r.seed = 0) := by
  unfold HelpDeskAgent.execute_subgraph at h
  split at h
  · exact absurd h (by simp)
  · rename_i result reqs2 hloop
    simp only [Except.ok.injEq, Prod.mk.injEq] at h
    obtain ⟨h1, h2⟩ := h; subst h1; subst h2
    refine ⟨?_, runSubtaskLoop_trace agent stub fuel _ result _ hloop⟩
    have hsub := runSubtaskLoop_subtask agent stub fuel _ result _ hloop
    simpa [initSubState] using hsub

/-- A successful fan-out produces one child per index, the `k`-th child
describing plan entry `idxs[k]`, and all children's requests are pinned. -/
theorem runChildrenGo_ok (agent : HelpDeskAgent) (stub : ModelStub)
    (fuel : Nat) (question : String) (plan : List String) :
    ∀ (idxs : List Nat) (children : List (Subtask × List ChatRequest)),
      runChildrenGo agent stub fuel question plan idxs = .ok children →
      children.length = idxs.length ∧
      (∀ k, k < idxs.length →
        (children.getD k default).1.task_name = plan.getD (idxs.getD k 0) "") ∧
      (∀ c ∈ children, ∀ r ∈ c.2, r.temperature = 0 ∧ r.seed = 0) := by
  intro idxs
  induction idxs with
  | nil =>
      intro children h
      unfold runChildrenGo at h
      simp only [Except.ok.injEq] at h
      subst h
      exact ⟨rfl, by intro k hk; simp at hk, by intro c hc; simp at hc⟩
  | cons i rest ih =>
      intro children h
      unfold runChildrenGo at h
      split at h
      · exact absurd h (by simp)
      · rename_i child hchild
        split at h
        · exact absurd h (by simp)
        · rename_i rest2 hrest
          simp only [Except.ok.injEq] at h
          subst h
          obtain ⟨l1, l2, l3⟩ := ih rest2 hrest
          obtain ⟨t1, t2⟩ := execute_subgraph_ok agent stub fuel question plan i
            child.1 child.2 (by simpa using hchild)
          refine ⟨by simpa using l1, ?_, ?_⟩
          · intro k hk
            cases k with
            | zero => simpa using t1
            | succ k =>
                rw [List.getD_cons_succ, List.getD_cons_succ]
                exact l2 k (by simpa using hk)
          · intro c hc
            rcases List.mem_cons.mp hc with rfl | hc2
            · exact t2
            · exact l3 c hc2

/-- Membership in `indexedFrom`: the key determines the payload. -/
theorem indexedFrom_mem (cs : List Subtask) :
    ∀ i j x, (j, x) ∈ indexedFrom i cs →
      i ≤ j ∧ j - i < cs.length ∧ cs.getD (j - i) default = x := by
  induction cs with
  | nil => intro i j x h; exact absurd h (List.not_mem_nil _)
  | cons a t ih =>
      intro i j x h
      rw [indexedFrom] at h
      rcases List.mem_cons.mp h with heq | hmem
      · rw [Prod.mk.injEq] at heq
        obtain ⟨rfl, rfl⟩ := heq
        exact ⟨Nat.le_refl _, by simp, by simp⟩
      · obtain ⟨hle, hlt, hgd⟩ := ih (i + 1) j x hmem
        refine ⟨by omega, by simp; omega, ?_⟩
        have hj : j - i = (j - (i + 1)) + 1 := by omega
        rw [hj, List.getD_cons_succ]
        exact hgd

/-- Every position of the list appears in `indexedFrom` with its index. -/
theorem indexedFrom_mem_of_lt (cs : List Subtask) :
    ∀ i k, k < cs.length → (i + k, cs.getD k default) ∈ indexedFrom i cs := by
  induction cs with
  | nil => intro i k h; simp at h
  | cons a t ih =>
      intro i k h
      rw [indexedFrom]
      cases k with
      | zero => simp
      | succ k =>
          apply List.mem_cons_of_mem
          have hr := ih (i + 1) k (by simpa using h)
          rw [show i + (k + 1) = (i + 1) + k by omega, List.getD_cons_succ]
          exact hr

/-- In any completion-order permutation of the children's contributions,
looking up fan-out index `i` finds exactly child `i`'s contribution. -/
theorem find?_indexed_perm (cs : List Subtask) (contribs : List (Nat × Subtask))
    (hperm : contribs.Perm (indexedFrom 0 cs)) (i : Nat) (hi : i < cs.length) :
    contribs.find? (fun c => c.1 == i) = some (i, cs.getD i default) := by
  have hmem : (i, cs.getD i default) ∈ contribs :=
    hperm.mem_iff.mpr (by simpa using indexedFrom_mem_of_lt cs 0 i hi)
  have hsome : (contribs.find? (fun c => c.1 == i)).isSome := by
    rw [List.find?_isSome]
    exact ⟨(i, cs.getD i default), hmem, by simp⟩
  obtain ⟨y, hy⟩ := Option.isSome_iff_exists.mp hsome
  have hpy : (y.1 == i) = true := by
    have := List.find?_some hy
    simpa using this
  have hymem : y ∈ contribs := List.mem_of_find?_eq_some hy
  have hyidx : y ∈ indexedFrom 0 cs := hperm.mem_iff.mp hymem
  have hy1 : y.1 = i := by simpa using hpy
  obtain ⟨_, _, hgd⟩ := indexedFrom_mem cs 0 y.1 y.2 (by simpa using hyidx)
  rw [hy]
  have hy2 : y.2 = cs.getD i default := by
    rw [← hgd]
    simp [hy1]
  rw [show y = (y.1, y.2) from rfl, hy1, hy2]

/-- filterMap over a list where the function is everywhere `some ∘ g` is a
plain map. -/
theorem filterMap_eq_map_of_forall {α β : Type} (l : List α) (f : α → Option β) (g : α → β)
    (h : ∀ a ∈ l, f a = some (g a)) : l.filterMap f = l.map g := by
  induction l with
  | nil => rfl
  | cons a t ih =>
      rw [List.filterMap_cons, h a (List.mem_cons_self a t), List.map_cons,
          ih (fun b hb => h b (List.mem_cons_of_mem a hb))]

/-- Reading every index of a list back in order reproduces the list. -/
theorem map_getD_range (cs : List Subtask) :
    (List.range cs.length).map (fun i => cs.getD i default) = cs := by
  induction cs with
  | nil => rfl
  | cons a t ih =>
      rw [List.length_cons, List.range_succ_eq_map, List.map_cons, List.map_map]
      have hcomp : ((fun i => (a :: t).getD i default) ∘ Nat.succ) = fun i => t.getD i default := by
        funext i
        simp [Function.comp, List.getD_cons_succ]
      rw [hcomp, ih]
      simp

/-- The join applied to any permutation of the tagged contributions yields
the children in fan-out-index order. -/
theorem joinSubtaskResults_perm (cs : List Subtask) (contribs : List (Nat × Subtask))
    (hperm : contribs.Perm (indexedFrom 0 cs)) :
    joinSubtaskResults cs.length contribs = cs := by
  unfold joinSubtaskResults
  rw [filterMap_eq_map_of_forall (List.range cs.length) _ (fun i => cs.getD i default) ?_]
  · exact map_getD_range cs
  · intro i hi
    rw [List.mem_range] at hi
    rw [find?_indexed_perm cs contribs hperm i hi]
    rfl

/-- Decomposition of a successful `run_agent`: the result's fields in terms
of the plan, the fan-out children and the aggregator. -/
theorem run_agent_ok (agent : HelpDeskAgent) (stub : ModelStub) (fuel : Nat)
    (q : String) (res : AgentResult) (reqs : List ChatRequest)
    (h : agent.run_agent stub fuel q = .ok (res, reqs)) :
    ∃ children,
      runChildrenGo agent stub fuel q ((agent.create_plan stub q).1)
          (HelpDeskAgent.should_continue_exec_subtasks ((agent.create_plan stub q).1))
        = .ok children ∧
      res.plan = (agent.create_plan stub q).1 ∧
      res.subtasks = children.map (fun c => c.1) ∧
      res.question = q ∧
      reqs = (agent.create_plan stub q).2 ::
        ((children.map (fun c => c.2)).flatten
          ++ [(agent.create_answer stub q res.plan res.subtasks).2]) := by
  unfold HelpDeskAgent.run_agent at h
  simp only [] at h
  split at h
  · exact absurd h (by simp)
  · rename_i children hch
    simp only [Except.ok.injEq, Prod.mk.injEq] at h
    obtain ⟨h1, h2⟩ := h
    subst h1; subst h2
    exact ⟨children, hch, rfl, rfl, rfl, rfl⟩

/-- getD through map below the length. -/
theorem getD_map_lt {α β : Type} [Inhabited α] [Inhabited β]
    (l : List α) (f : α → β) (i : Nat) (h : i < l.length) :
    (l.map f).getD i default = f (l.getD i default) := by
  induction l generalizing i with
  | nil => simp at h
  | cons a t ih =>
      cases i with
      | zero => simp
      | succ i =>
          simp only [List.map_cons, List.getD_cons_succ]
          exact ih i (by simpa using h)

/-- getD on a range below the bound. -/
theorem getD_range_lt (n i : Nat) (h : i < n) : (List.range n).getD i 0 = i := by
  induction n generalizing i with
  | zero => simp at h
  | succ n ih =>
      by_cases hi : i < n
      · rw [List.range_succ, List.getD_append _ _ _ _ (by simpa using hi)]
        exact ih i hi
      · have hin : i = n := by omega
        subst hin
        rw [List.range_succ]
        rw [List.getD_append_right _ _ _ _ (by simp)]
        simp

/-! ## Claim theorems -/

/-- Claim C1 (code bug): on a retry the filter in `select_tools` is meant
to drop every role=tool message and every assistant message carrying
tool_calls, but because the list comprehension joins the two conditions
with `or`, it removes nothing: on a concrete retry buffer the filter is the
identity, the role=tool message and the assistant tool_calls message are
both still in the buffer sent to the model, and the filter disagrees with
the spec's pruning rule. -/
theorem claim_C1_prune_bug :
    pruneMessagesForRetry c1state.messages = c1state.messages ∧
    c1toolMsg ∈ c1sent.messages ∧
    c1aiToolCalls ∈ c1sent.messages ∧
    specPruneMessages c1state.messages ≠ pruneMessagesForRetry c1state.messages := by
  decide

/-- Claim C2: after a successful run there is exactly one subtask result
per plan entry, entry `i` describes plan entry `i`, and the join applied to
any completion-order permutation of the children's contributions
reconstructs exactly the plan-index order. -/
theorem claim_C2_subtask_results_order (agent : HelpDeskAgent) (stub : ModelStub)
    (fuel : Nat) (q : String) (res : AgentResult) (reqs : List ChatRequest)
    (contribs : List (Nat × Subtask))
    (hrun : agent.run_agent stub fuel q = .ok (res, reqs))
    (hperm : contribs.Perm (indexedFrom 0 res.subtasks)) :
    joinSubtaskResults res.subtasks.length contribs = res.subtasks ∧
    res.subtasks.length = res.plan.length ∧
    ∀ i, i < res.plan.length →
      (res.subtasks.getD i default).task_name = res.plan.getD i "" := by
  obtain ⟨children, hch, hplan, hsub, hq, hreqs⟩ :=
    run_agent_ok agent stub fuel q res reqs hrun
  obtain ⟨l1, l2, l3⟩ := runChildrenGo_ok agent stub fuel q _ _ children hch
  have hlen : res.subtasks.length = res.plan.length := by
    rw [hsub, hplan, List.length_map, l1]
    simp [HelpDeskAgent.should_continue_exec_subtasks]
  refine ⟨joinSubtaskResults_perm _ contribs hperm, hlen, ?_⟩
  intro i hi
  have hi2 : i < children.length := by
    rw [l1]
    simp only [HelpDeskAgent.should_continue_exec_subtasks, List.length_range]
    rw [hplan] at hi
    exact hi
  have hstep := l2 i (by
    simp only [HelpDeskAgent.should_continue_exec_subtasks, List.length_range]
    rw [hplan] at hi
    exact hi)
  rw [hsub, getD_map_lt children _ i hi2, hplan]
  rw [HelpDeskAgent.should_continue_exec_subtasks] at hstep
  rw [getD_range_lt _ i (by rw [hplan] at hi; simpa using hi)] at hstep
  exact hstep

/-- Claim C3: with the budget's worth of fuel, a successful sub-task loop
started at challenge_count = 0 ends exactly on the terminal condition
`is_completed ∨ challenge_count = MAX_CHALLENGE_COUNT`, ends with
challenge_count in [1, MAX_CHALLENGE_COUNT], and extra fuel beyond
MAX_CHALLENGE_COUNT rounds never changes the outcome (no fourth round). -/
theorem claim_C3_loop_terminates (agent : HelpDeskAgent) (stub : ModelStub)
    (fuel : Nat) (q : String) (plan : List String) (idx : Nat)
    (res : AgentSubGraphState) (reqs : List ChatRequest)
    (hfuel : MAX_CHALLENGE_COUNT ≤ fuel)
    (hrun : runSubtaskLoop agent stub fuel (initSubState q plan idx) = .ok (res, reqs)) :
    (res.is_completed = true ∨ res.challenge_count = MAX_CHALLENGE_COUNT) ∧
    1 ≤ res.challenge_count ∧
    res.challenge_count ≤ MAX_CHALLENGE_COUNT ∧
    runSubtaskLoop agent stub fuel (initSubState q plan idx) =
      runSubtaskLoop agent stub MAX_CHALLENGE_COUNT (initSubState q plan idx) := by
  have h0 : (initSubState q plan idx).challenge_count = 0 := rfl
  have hmax : (0:Nat) < MAX_CHALLENGE_COUNT := by decide
  obtain ⟨d1, d2, d3, d4, d5⟩ :=
    runSubtaskLoop_ok_spec agent stub fuel _ res reqs (by omega) (by omega) hrun
  exact ⟨d1, by omega, d3,
    runSubtaskLoop_fuel_indep agent stub fuel MAX_CHALLENGE_COUNT _
      (by omega) (by omega) (by omega)⟩

theorem claim_C2_witness :
    joinSubtaskResults c2pair.1.subtasks.length c2contribs = c2pair.1.subtasks ∧
    c2pair.1.subtasks.length = c2pair.1.plan.length ∧
    ∀ i, i < c2pair.1.plan.length →
      (c2pair.1.subtasks.getD i default).task_name = c2pair.1.plan.getD i "" :=
  claim_C2_subtask_results_order agentA stub2 MAX_CHALLENGE_COUNT "q" c2pair.1 c2pair.2
    c2contribs rfl (List.reverse_perm _)

theorem claim_C3_witness :
    (c3pair.1.is_completed = true ∨ c3pair.1.challenge_count = MAX_CHALLENGE_COUNT) ∧
    1 ≤ c3pair.1.challenge_count ∧
    c3pair.1.challenge_count ≤ MAX_CHALLENGE_COUNT ∧
    runSubtaskLoop agentA stubOk MAX_CHALLENGE_COUNT (initSubState "q" ["look up ERR-404"] 0) =
      runSubtaskLoop agentA stubOk MAX_CHALLENGE_COUNT (initSubState "q" ["look up ERR-404"] 0) :=
  claim_C3_loop_terminates agentA stubOk MAX_CHALLENGE_COUNT "q" ["look up ERR-404"] 0
    c3pair.1 c3pair.2 (Nat.le_refl _) rfl

/-- Claim C4 counterexample: on a concrete budget-exhausted run the
placeholder the code installs is the Japanese
`subtask + "の回答が見つかりませんでした。"`, not the claimed
`"no answer found for: " + subtask`. -/
theorem claim_C4_counterexample :
    c4pair.1.is_completed = false ∧
    c4pair.1.challenge_count = MAX_CHALLENGE_COUNT ∧
    c4pair.1.subtask_answer = "look up ERR-404の回答が見つかりませんでした。" ∧
    c4pair.1.subtask_answer ≠ "no answer found for: " ++ c4pair.1.task_name := by
  decide

/-- Claim C4 (amended): a sub-task loop that terminates not-completed
terminates with challenge_count = MAX_CHALLENGE_COUNT and with
`subtask_answer` replaced by the deterministic placeholder
`subtask + "の回答が見つかりませんでした。"`. -/
theorem claim_C4_amended_placeholder (agent : HelpDeskAgent) (stub : ModelStub)
    (fuel : Nat) (q : String) (plan : List String) (idx : Nat)
    (st : Subtask) (reqs : List ChatRequest)
    (hfuel : MAX_CHALLENGE_COUNT ≤ fuel)
    (hrun : agent.execute_subgraph stub fuel q plan idx = .ok (st, reqs))
    (hic : st.is_completed = false) :
    st.challenge_count = MAX_CHALLENGE_COUNT ∧
    st.subtask_answer = noAnswerPlaceholder st.task_name := by
  unfold HelpDeskAgent.execute_subgraph at hrun
  split at hrun
  · exact absurd hrun (by simp)
  · rename_i result reqs2 hloop
    simp only [Except.ok.injEq, Prod.mk.injEq] at hrun
    obtain ⟨h1, h2⟩ := hrun; subst h1; subst h2
    have h0 : (initSubState q plan idx).challenge_count = 0 := rfl
    have hmax : (0:Nat) < MAX_CHALLENGE_COUNT := by decide
    obtain ⟨d1, d2, d3, d4, d5⟩ :=
      runSubtaskLoop_ok_spec agent stub fuel _ result reqs2 (by omega) (by omega) hloop
    simp only at hic
    rcases d1 with hc | hc
    · rw [hic] at hc; exact absurd hc (by simp)
    · have hans := d5 hic
      exact ⟨hc, hans.trans (congrArg noAnswerPlaceholder d4).symm⟩

theorem claim_C4_witness :
    c4pair.1.challenge_count = MAX_CHALLENGE_COUNT ∧
    c4pair.1.subtask_answer = noAnswerPlaceholder c4pair.1.task_name :=
  claim_C4_amended_placeholder agentA stubFail MAX_CHALLENGE_COUNT "q" ["look up ERR-404"] 0
    c4pair.1 c4pair.2 (Nat.le_refl _) rfl rfl

/-- Claim C5: at the end of a successful sub-task loop the lengths of
`tool_results` and `reflection_results` both equal `challenge_count`, and
every round appends exactly one outer element to each and increments the
counter by exactly one. -/
theorem claim_C5_lengths_match (agent : HelpDeskAgent) (stub : ModelStub)
    (fuel : Nat) (q : String) (plan : List String) (idx : Nat)
    (res : AgentSubGraphState) (reqs : List ChatRequest)
    (hrun : runSubtaskLoop agent stub fuel (initSubState q plan idx) = .ok (res, reqs)) :
    res.tool_results.length = res.challenge_count ∧
    res.reflection_results.length = res.challenge_count ∧
    ∀ s s4 rr, subtaskRound agent stub s = .ok (s4, rr) →
      s4.tool_results.length = s.tool_results.length + 1 ∧
      s4.reflection_results.length = s.reflection_results.length + 1 ∧
      s4.challenge_count = s.challenge_count + 1 := by
  obtain ⟨t1, t2⟩ := runSubtaskLoop_lengths agent stub fuel _ res reqs hrun rfl rfl
  refine ⟨t1, t2, ?_⟩
  intro s s4 rr h
  obtain ⟨c1, c2, c3, c4, c5, c6⟩ := subtaskRound_ok agent stub s s4 rr h
  exact ⟨c3, c4, c1⟩

theorem claim_C5_witness :
    c3pair.1.tool_results.length = c3pair.1.challenge_count ∧
    c3pair.1.reflection_results.length = c3pair.1.challenge_count ∧
    ∀ s s4 rr, subtaskRound agentA stubOk s = .ok (s4, rr) →
      s4.tool_results.length = s.tool_results.length + 1 ∧
      s4.reflection_results.length = s.reflection_results.length + 1 ∧
      s4.challenge_count = s.challenge_count + 1 :=
  claim_C5_lengths_match agentA stubOk MAX_CHALLENGE_COUNT "q" ["look up ERR-404"] 0
    c3pair.1 c3pair.2 rfl

/-- Claim C6: every model request a successful run issues (planner,
selector, synthesizer, reflector, aggregator) pins temperature = 0 and
seed = 0, and with a fixed deterministic stub two runs of the same question
are the same computation, hence produce identical results. -/
theorem claim_C6_pinned_determinism (agent : HelpDeskAgent) (stub : ModelStub)
    (fuel : Nat) (q : String) (res : AgentResult) (reqs : List ChatRequest)
    (hrun : agent.run_agent stub fuel q = .ok (res, reqs)) :
    (∀ r ∈ reqs, r.temperature = 0 ∧ r.seed = 0) ∧
    agent.run_agent stub fuel q = agent.run_agent stub fuel q := by
  obtain ⟨children, hch, hplan, hsub, hq, hreqs⟩ :=
    run_agent_ok agent stub fuel q res reqs hrun
  obtain ⟨l1, l2, l3⟩ := runChildrenGo_ok agent stub fuel q _ _ children hch
  refine ⟨?_, rfl⟩
  intro r hr
  rw [hreqs] at hr
  rcases List.mem_cons.mp hr with rfl | hr2
  · exact ⟨rfl, rfl⟩
  · rcases List.mem_append.mp hr2 with hflat | hfinal
    · obtain ⟨t, ht, hrt⟩ := List.mem_flatten.mp hflat
      obtain ⟨c, hc, rfl⟩ := List.mem_map.mp ht
      exact l3 c hc r hrt
    · rw [List.mem_singleton] at hfinal
      subst hfinal
      exact ⟨rfl, rfl⟩

theorem claim_C6_witness :
    (∀ r ∈ c6pair.2, r.temperature = 0 ∧ r.seed = 0) ∧
    agentA.run_agent stubOk MAX_CHALLENGE_COUNT "q" =
      agentA.run_agent stubOk MAX_CHALLENGE_COUNT "q" :=
  claim_C6_pinned_determinism agentA stubOk MAX_CHALLENGE_COUNT "q" c6pair.1 c6pair.2 rfl

/-- Claim C7: when the selector's completion carries no tool_calls, the
selector fails with the no-tool-selected error, the whole run fails with
that error, and no AgentResult is produced. -/
theorem claim_C7_no_tool_selected_fails (agent : HelpDeskAgent) (stub : ModelStub)
    (fuel : Nat) (q : String)
    (hsel : ∀ req, stub.selectToolCalls req = none)
    (hfuel : 1 ≤ fuel)
    (hplan : (agent.create_plan stub q).1 ≠ []) :
    agent.run_agent stub fuel q = .error .noToolSelected := by
  have hsel2 : ∀ s, agent.select_tools stub s = .error .noToolSelected := by
    intro s
    unfold HelpDeskAgent.select_tools
    simp only [hsel]
  have hround : ∀ s, subtaskRound agent stub s = .error .noToolSelected := by
    intro s
    unfold subtaskRound
    rw [hsel2 s]
  have hloop : ∀ s, runSubtaskLoop agent stub fuel s = .error .noToolSelected := by
    obtain ⟨n, rfl⟩ : ∃ n, fuel = n + 1 := ⟨fuel - 1, by omega⟩
    intro s
    unfold runSubtaskLoop
    rw [hround s]
  have hexec : ∀ (plan : List String) (idx : Nat),
      agent.execute_subgraph stub fuel q plan idx = .error .noToolSelected := by
    intro plan idx
    unfold HelpDeskAgent.execute_subgraph
    rw [hloop _]
  have hch : runChildrenGo agent stub fuel q ((agent.create_plan stub q).1)
      (HelpDeskAgent.should_continue_exec_subtasks ((agent.create_plan stub q).1))
        = .error .noToolSelected := by
    obtain ⟨a, t, hpl⟩ := List.exists_cons_of_ne_nil hplan
    rw [HelpDeskAgent.should_continue_exec_subtasks, hpl, List.length_cons,
        List.range_succ_eq_map]
    unfold runChildrenGo
    rw [hexec _ 0]
  unfold HelpDeskAgent.run_agent
  simp only []
  rw [hch]

theorem claim_C7_witness :
    agentA.run_agent stubNone MAX_CHALLENGE_COUNT "q" = .error .noToolSelected :=
  claim_C7_no_tool_selected_fails agentA stubNone MAX_CHALLENGE_COUNT "q"
    (fun _ => rfl) (by decide) (by decide)

/-- Claim C8 counterexample: the dispatcher hands the tool's `invoke` the
raw JSON arguments text itself — for the concrete call the handler receives
the full JSON object literal, which is not the parsed `query` value. -/
theorem claim_C8_counterexample :
    c8invoked = [("search_xyz_qa", rawArgsA)] ∧ rawArgsA ≠ "ERR-404" := by
  decide

/-- Claim C8 (amended): for every tool call the executor dispatches, the
value passed to the handler's `invoke` is exactly the provider's raw
`function.arguments` string, unchanged — no translation into the handler's
typed argument object happens in the dispatcher. -/
theorem claim_C8_amended_raw_args (agent : HelpDeskAgent) (tcs : List ToolCall)
    (messages : List ChatMessage) (acc : List ToolResult)
    (invoked : List (String × String)) (res : List ToolResult)
    (hok : (executeToolsGo agent tcs messages acc invoked).2.2 = .ok res) :
    (executeToolsGo agent tcs messages acc invoked).2.1
      = invoked ++ tcs.map (fun tc => (tc.function.name, tc.function.arguments)) := by
  induction tcs generalizing messages acc invoked with
  | nil => simp [executeToolsGo]
  | cons tc rest ih =>
      unfold executeToolsGo at hok ⊢
      simp only [] at hok ⊢
      cases hmap : agent.tool_map tc.function.name with
      | none =>
          rw [hmap] at hok
          simp only [] at hok
          exact absurd hok (by simp)
      | some tool =>
          rw [hmap] at hok
          simp only [] at hok ⊢
          rw [ih _ _ _ hok]
          simp

theorem claim_C8_witness :
    (executeToolsGo agentA [tcA] [] [] []).2.1
      = [] ++ [tcA].map (fun tc => (tc.function.name, tc.function.arguments)) :=
  claim_C8_amended_raw_args agentA [tcA] [] [] [] c8results rfl

/-- Claim C9 counterexample: `max_challenges` is not a recognised
configuration key of `Settings`. -/
theorem claim_C9_counterexample : "max_challenges" ∉ Settings.recognisedKeys := by
  decide

/-- Claim C9 (amended): the retry budget is the fixed module constant
MAX_CHALLENGE_COUNT = 3; the configuration type recognises no
`max_challenges` key, and the sub-task loop's bound is that constant — a
successful loop started from the seed state never exceeds it, whatever the
configuration. -/
theorem claim_C9_amended_fixed_budget :
    MAX_CHALLENGE_COUNT = 3 ∧
    "max_challenges" ∉ Settings.recognisedKeys ∧
    ∀ (agent : HelpDeskAgent) (stub : ModelStub) (fuel : Nat) (q : String)
      (plan : List String) (idx : Nat)
      (res : AgentSubGraphState) (reqs : List ChatRequest),
      runSubtaskLoop agent stub fuel (initSubState q plan idx) = .ok (res, reqs) →
      res.challenge_count ≤ MAX_CHALLENGE_COUNT := by
  refine ⟨rfl, by decide, ?_⟩
  intro agent stub fuel q plan idx res reqs h
  exact runSubtaskLoop_cc_le agent stub fuel _ res reqs
    (show (0:Nat) < MAX_CHALLENGE_COUNT by decide) h

/-- Claim C10: the executor processes the round's tool calls strictly in
order, appending each call's role=tool message (with its tool_call_id) as
soon as the handler returns; when the first unregistered name is hit, the
lookup error propagates while the messages of all earlier calls are already
on the shared buffer. -/
theorem claim_C10_nonatomic_appends (agent : HelpDeskAgent)
    (good : List ToolCall) (bad : ToolCall) (rest : List ToolCall)
    (messages : List ChatMessage) (acc : List ToolResult)
    (invoked : List (String × String))
    (hgood : ∀ tc ∈ good, (agent.tool_map tc.function.name).isSome = true)
    (hbad : agent.tool_map bad.function.name = none) :
    (executeToolsGo agent (good ++ bad :: rest) messages acc invoked).1
      = messages ++ good.map (toolMessageOf agent) ∧
    (executeToolsGo agent (good ++ bad :: rest) messages acc invoked).2.2
      = .error (.unknownTool bad.function.name) := by
  induction good generalizing messages acc invoked with
  | nil =>
      simp only [List.nil_append, List.map_nil, List.append_nil]
      unfold executeToolsGo
      simp only []
      rw [hbad]
      exact ⟨rfl, rfl⟩
  | cons tc t ih =>
      have htc := hgood tc (List.mem_cons_self tc t)
      obtain ⟨tool, htool⟩ := Option.isSome_iff_exists.mp htc
      simp only [List.cons_append]
      unfold executeToolsGo
      simp only []
      rw [htool]
      simp only []
      obtain ⟨ih1, ih2⟩ := ih
        (messages ++ [ { role := "tool"
                       , content := some (renderSearchOutputs (tool.invoke tc.function.arguments))
                       , tool_call_id := some tc.id } ])
        (acc ++ [ { tool_name := tc.function.name, args := tc.function.arguments
                  , results := tool.invoke tc.function.arguments } ])
        (invoked ++ [(tc.function.name, tc.function.arguments)])
        (fun x hx => hgood x (List.mem_cons_of_mem tc hx))
      refine ⟨?_, ih2⟩
      rw [ih1]
      rw [List.map_cons, List.append_assoc]
      congr 1
      rw [toolMessageOf, htool]
      simp


theorem claim_C10_witness :
    (executeToolsGo agentA ([tcA] ++ tcBad :: []) [] [] []).1
      = [] ++ [tcA].map (toolMessageOf agentA) ∧
    (executeToolsGo agentA ([tcA] ++ tcBad :: []) [] [] []).2.2
      = .error (.unknownTool tcBad.function.name) :=
  claim_C10_nonatomic_appends agentA [tcA] tcBad [] [] [] []
    (by intro tc htc; rw [List.mem_singleton] at htc; subst htc; rfl) rfl
